import Mathlib

/-!
Verification of the `AuthHelper` SSO pipeline orchestrator
(`src/sentry/auth/helper.py`) against its natural-language specification.

The Python code is shallowly embedded: the session store, the ORM-backed
record stores and the request object become explicit state threaded through
the functions; raised exceptions become `Except.error` values carrying the
kind of exception; Django's `transaction.atomic` decorator becomes a wrapper
that discards the partial database on error (rollback).  Python strings are
embedded as `List Char`, and Python dict/attribute access that can fail is
made explicit with `Option`.
-/

deriving instance DecidableEq for Except

namespace Sentry

/-- Python strings, embedded as their character sequences. -/
abbrev Str := List Char

/-- Shorthand to write a `Str` from a string literal. -/
def str (s : String) : Str := s.toList

/-- A JSON-ish string-keyed mapping, used for the free-form `data` blobs. -/
abbrev Data := List (Str × Str)

/-- The pipeline's accumulated `state` blob (`session['auth']['state']`). -/
abbrev StateBlob := List (Str × Str)

/-- The Python exceptions the orchestrator can raise, by kind. -/
inductive PyErr where
  | keyError
  | doesNotExist
  | nameError
  | unboundLocal
  | attributeError
  | assertionError
  | notImplementedError
  | indexError
  deriving DecidableEq, Repr

/-- Terminal HTTP-level results produced by the orchestrator: a redirect to a
named route with its positional arguments.  Step dispatches also produce a
value of this type (their own response). -/
inductive Response where
  | redirect (route : Str) (args : List Str)
  deriving DecidableEq, Repr

/-- Audit log event kinds used by the finish resolvers
(`AuditLogEntryEvent.MEMBER_ADD` and `AuditLogEntryEvent.SSO_ENABLE`). -/
inductive AuditEvent where
  | MEMBER_ADD
  | SSO_ENABLE
  deriving DecidableEq, Repr

/- ### The signature over step identifiers -/

/-- Python's `' '.join(...)`: the ordered step identifiers concatenated with a
single space between consecutive elements (`helper.py` line 86). -/
def joinIdents : List Str → Str
  | [] => []
  | [x] => x
  | x :: y :: ys => x ++ ' ' :: joinIdents (y :: ys)

/-- The `md5(...).hexdigest()` call of `helper.py` line 85.  The digest is
modeled as an injective fingerprint of its input string (the ideal,
collision-free reading of md5); every property proved or refuted below about
signatures of *equal* digest inputs is independent of this idealization. -/
def md5hexdigest (s : Str) : Str := s

/-- The session signature computed in `AuthHelper.__init__` (lines 85–87):
the md5 hexdigest of the space-joined step identifiers. -/
def signatureOf (idents : List Str) : Str := md5hexdigest (joinIdents idents)

@[simp] lemma joinIdents_nil : joinIdents [] = [] := rfl

@[simp] lemma joinIdents_single (x : Str) : joinIdents [x] = x := rfl

@[simp] lemma joinIdents_cons_cons (x y : Str) (ys : List Str) :
    joinIdents (x :: y :: ys) = x ++ ' ' :: joinIdents (y :: ys) := rfl

lemma joinIdents_cons_ne (a : Str) (L : List Str) (h : L ≠ []) :
    joinIdents (a :: L) = a ++ ' ' :: joinIdents L := by
  cases L with
  | nil => exact absurd rfl h
  | cons y ys => rfl

/-- Changing the element at one position of the identifier sequence changes
the joined string (hence the digest input). -/
lemma join_single_change :
    ∀ (l : List Str) (i : Nat) (hi : i < l.length) (x : Str),
      x ≠ l.get ⟨i, hi⟩ → joinIdents (l.set i x) ≠ joinIdents l := by
  intro l
  induction l with
  | nil => intro i hi; simp at hi
  | cons a t ih =>
    intro i hi x hx
    cases i with
    | zero =>
      cases t with
      | nil => simpa using hx
      | cons b t' =>
        intro hEq
        simp only [List.set, joinIdents_cons_cons] at hEq
        have hlen : x.length = a.length := by
          have := congrArg List.length hEq
          simp at this
          omega
        exact hx (by simpa using (List.append_inj hEq hlen).1)
    | succ j =>
      have hj : j < t.length := by simpa using hi
      cases t with
      | nil => simp at hj
      | cons b t' =>
        intro hEq
        have hne : (b :: t').set j x ≠ [] := by
          intro habs
          have := congrArg List.length habs
          simp at this
        rw [show ((a :: b :: t').set (j + 1) x) = a :: ((b :: t').set j x) from rfl,
          joinIdents_cons_ne _ _ hne, joinIdents_cons_cons] at hEq
        have h2 := List.append_cancel_left hEq
        have h3 : joinIdents ((b :: t').set j x) = joinIdents (b :: t') := by
          injection h2
        exact ih j hj x (by simpa using hx) h3

/-- Splitting a space-joined pair: if neither head contains a space, equal
joins force equal heads and equal tails. -/
lemma sep_split :
    ∀ (x y a b : Str), ' ' ∉ x → ' ' ∉ y →
      x ++ ' ' :: a = y ++ ' ' :: b → x = y ∧ a = b := by
  intro x
  induction x with
  | nil =>
    intro y a b _ hy h
    cases y with
    | nil =>
      refine ⟨rfl, ?_⟩
      simpa using h
    | cons c y' =>
      exfalso
      simp only [List.nil_append, List.cons_append, List.cons.injEq] at h
      exact hy (h.1 ▸ List.mem_cons_self c y')
  | cons c x' ih =>
    intro y a b hx hy h
    cases y with
    | nil =>
      exfalso
      simp only [List.nil_append, List.cons_append, List.cons.injEq] at h
      exact hx (h.1.symm ▸ List.mem_cons_self c x')
    | cons d y' =>
      simp only [List.cons_append, List.cons.injEq] at h
      obtain ⟨hcd, htail⟩ := h
      have := ih y' a b (fun hm => hx (List.mem_cons_of_mem _ hm))
        (fun hm => hy (List.mem_cons_of_mem _ hm)) htail
      exact ⟨by rw [hcd, this.1], this.2⟩

/-- On equal-length sequences of space-free identifiers, the space-join is
injective. -/
lemma join_inj_of_space_free :
    ∀ (l1 l2 : List Str), (∀ x ∈ l1, ' ' ∉ x) → (∀ x ∈ l2, ' ' ∉ x) →
      l1.length = l2.length → joinIdents l1 = joinIdents l2 → l1 = l2 := by
  intro l1
  induction l1 with
  | nil =>
    intro l2 _ _ hlen _
    cases l2 with
    | nil => rfl
    | cons y ys => simp at hlen
  | cons x t1 ih =>
    intro l2 h1 h2 hlen hj
    cases l2 with
    | nil => simp at hlen
    | cons y t2 =>
      cases t1 with
      | nil =>
        cases t2 with
        | nil => simpa using hj
        | cons b2 t2' => simp at hlen
      | cons a1 t1' =>
        cases t2 with
        | nil => simp at hlen
        | cons b2 t2' =>
          simp only [joinIdents_cons_cons] at hj
          have hsplit := sep_split x y _ _
            (h1 x (List.mem_cons_self _ _)) (h2 y (List.mem_cons_self _ _)) hj
          have htails := ih (b2 :: t2')
            (fun z hz => h1 z (List.mem_cons_of_mem _ hz))
            (fun z hz => h2 z (List.mem_cons_of_mem _ hz))
            (by simpa using hlen) hsplit.2
          rw [hsplit.1, htails]

/- ### External collaborators: identity/persistence store, provider registry -/

/-- Modelled from the spec: an organization record of the persistence store
(`sentry.models.Organization` is not under `src/`); the orchestrator reads
its `id` and its `slug` (for redirect targets). -/
structure OrganizationRec where
  id : Nat
  slug : Str
  deriving DecidableEq, Repr

/-- Modelled from the spec: a persisted provider configuration
(`sentry.models.AuthProvider` is not under `src/`): scoped to an
organization, it stores the provider-type key, the built config, and the
default membership role used when provisioning users. -/
structure AuthProviderRec where
  id : Nat
  organizationId : Nat
  providerKey : Str
  config : Data
  default_role : Nat
  deriving DecidableEq, Repr

/-- Modelled from the spec: a user record (`sentry.models.User` is not under
`src/`); the login resolver creates externally-managed users. -/
structure UserRec where
  id : Nat
  email : Str
  first_name : Option Str
  is_managed : Bool
  deriving DecidableEq, Repr

/-- Modelled from the spec: an identity record (`sentry.models.AuthIdentity`
is not under `src/`), keyed by provider + external subject id, linking a
user to a provider, with a mutable provider-supplied `data` blob. -/
structure AuthIdentityRec where
  id : Nat
  authProviderId : Option Nat
  userId : Nat
  ident : Str
  data : Data
  deriving DecidableEq, Repr

/-- Modelled from the spec: an organization membership record
(`sentry.models.OrganizationMember` is not under `src/`). -/
structure OrgMemberRec where
  id : Nat
  organizationId : Nat
  role : Nat
  userId : Nat
  has_global_access : Bool
  deriving DecidableEq, Repr

/-- Modelled from the spec: an audit-log entry
(`sentry.models.AuditLogEntry` is not under `src/`) capturing actor, IP,
target and event kind; the opaque audit `data` snapshot is omitted. -/
structure AuditRec where
  organizationId : Nat
  actorUserId : Nat
  ip : Str
  targetObject : Option Nat
  targetUser : Option Nat
  event : AuditEvent
  deriving DecidableEq, Repr

/-- The identity/persistence store consumed by the resolvers, with a fresh-id
counter standing in for the primary-key sequences. -/
structure Database where
  nextId : Nat
  users : List UserRec
  authIdentities : List AuthIdentityRec
  orgMembers : List OrgMemberRec
  authProviderRecs : List AuthProviderRec
  organizations : List OrganizationRec
  auditLogs : List AuditRec
  deriving DecidableEq, Repr

/-- The transient identity built by the provider from the accumulated state
(`provider.build_identity(state)`): a dict with keys `id`, `email`, and
optional `name` and `data` (the code reads `name`/`data` with `.get`). -/
structure Identity where
  id : Str
  email : Str
  name : Option Str
  data : Option Data
  deriving DecidableEq, Repr

/-- Modelled from the spec: an `AuthView` pipeline step (`sentry.auth.view`
is not under `src/`): a stable identifier (`get_ident`, feeding the
signature) and a dispatch contract.  Per the Step contract (§4.1) a step
touches session state only through `bindState`/`fetchState` and otherwise
returns its own terminal response, so dispatch is embedded as the response
the step produces. -/
structure AuthView where
  ident : Str
  dispatchResult : Response
  deriving DecidableEq, Repr

/-- Modelled from the spec: a provider implementation (`sentry.auth.provider`
is not under `src/`): a type key, an ordered step sequence per flow, and the
builders for the final identity and config. -/
structure Provider where
  key : Str
  auth_pipeline : List AuthView
  setup_pipeline : List AuthView
  build_identity : StateBlob → Identity
  build_config : StateBlob → Data

/-- Modelled from the spec: the provider registry (`sentry.auth.manager` is
not under `src/`), mapping provider-type keys to providers. -/
abbrev Manager := List (Str × Provider)

/-- Modelled from the spec: `manager.get(key)` raises on an unknown key. -/
def managerGet (mgr : Manager) (key : Str) : Except PyErr Provider :=
  match mgr.find? (fun kv => kv.1 == key) with
  | some kv => .ok kv.2
  | none => .error .keyError

/-- Lookup backing `AuthProvider.objects.get(id=...)`. -/
def findAuthProviderRec (db : Database) (i : Nat) : Option AuthProviderRec :=
  db.authProviderRecs.find? (fun r => r.id == i)

/-- Lookup backing `Organization.objects.get(id=...)`. -/
def findOrganization (db : Database) (i : Nat) : Option OrganizationRec :=
  db.organizations.find? (fun o => o.id == i)

/-- Lookup backing `AuthIdentity.objects.get(auth_provider=..., ident=...)`. -/
def findAuthIdentity (db : Database) (apId : Option Nat) (ident : Str) :
    Option AuthIdentityRec :=
  db.authIdentities.find? (fun ai => ai.authProviderId == apId && ai.ident == ident)

/- ### The session store and the request -/

/-- The session-scoped pipeline record, the value of `request.session['auth']`
as written by `init_pipeline` (lines 95–104).  The keys the code reads with
`.get` (`ap`, `p`, `org`, `sig`) are `Option`s so that their absence (or a
Python `None` value) is representable. -/
structure AuthSession where
  ap : Option Nat
  p : Option Str
  org : Option Nat
  idx : Int
  sig : Option Str
  flow : Nat
  state : StateBlob
  deriving DecidableEq, Repr

/-- The session store: whether the `auth` key is present, plus the
`is_modified` dirty flag. -/
structure SessionStore where
  auth : Option AuthSession
  is_modified : Bool
  deriving DecidableEq, Repr

/-- The request context the orchestrator consumes: the session store, the
currently authenticated user (`request.user`) and the client address
(`request.META['REMOTE_ADDR']`). -/
structure Request where
  session : SessionStore
  user : Nat
  remoteAddr : Str
  deriving DecidableEq, Repr

/-- Python truthiness of an optional integer (`None` and `0` are falsy). -/
def natTruthy : Option Nat → Bool
  | none => false
  | some n => n != 0

/-- Python truthiness of an optional string (`None` and `''` are falsy). -/
def strTruthy : Option Str → Bool
  | none => false
  | some s => !s.isEmpty

/-- `AuthHelper.FLOW_LOGIN` (line 29). -/
def FLOW_LOGIN : Nat := 1

/-- `AuthHelper.FLOW_SETUP_PROVIDER` (line 30). -/
def FLOW_SETUP_PROVIDER : Nat := 2

/-- Modelled from the spec: the schema default of `AuthProvider.default_role`
(the model definition is not under `src/`). -/
def AUTH_PROVIDER_DEFAULT_ROLE : Nat := 50

/- ### The orchestrator object -/

/-- The constructed `AuthHelper` instance: the fields `__init__` assigns
(lines 58–87). -/
structure AuthHelper where
  organization : OrganizationRec
  flow : Nat
  auth_provider : Option AuthProviderRec
  provider : Provider
  pipeline : List AuthView
  signature : Str

/-- `AuthHelper.__init__` (lines 58–87): asserts that a provider reference is
given, resolves the provider (via `auth_provider.get_provider()`, itself a
registry lookup by the record's stored key, or via `manager.get`), resolves
the step sequence for the flow, and computes the signature. -/
def AuthHelper.mkHelper (mgr : Manager) (organization : OrganizationRec)
    (flow : Nat) (auth_provider : Option AuthProviderRec)
    (provider_key : Option Str) : Except PyErr AuthHelper :=
  if !(strTruthy provider_key || auth_provider.isSome) then .error .assertionError
  else
    let providerE : Except PyErr Provider :=
      match auth_provider with
      | some ap => managerGet mgr ap.providerKey
      | none =>
        if strTruthy provider_key then managerGet mgr (provider_key.getD [])
        else .error .notImplementedError
    match providerE with
    | .error e => .error e
    | .ok provider =>
      let pipelineE : Except PyErr (List AuthView) :=
        if flow = FLOW_LOGIN then .ok provider.auth_pipeline
        else if flow = FLOW_SETUP_PROVIDER then .ok provider.setup_pipeline
        else .error .notImplementedError
      match pipelineE with
      | .error e => .error e
      | .ok pipeline =>
        .ok { organization := organization, flow := flow,
              auth_provider := auth_provider, provider := provider,
              pipeline := pipeline,
              signature := signatureOf (pipeline.map AuthView.ident) }

/-- `AuthHelper.get_for_request` (lines 32–56): returns `None` when the
record is missing or its `org` entry is falsy; otherwise resolves the
provider reference (raising `DoesNotExist` on an unknown `ap` id, or
reaching the constructor with the local `auth_provider` unbound — a
`NameError` — when both `ap` and `p` are falsy), then the organization
(raising `DoesNotExist` when unknown), then constructs the helper. -/
def get_for_request (mgr : Manager) (db : Database) (req : Request) :
    Except PyErr (Option AuthHelper) :=
  match req.session.auth with
  | none => .ok none
  | some s =>
    if !natTruthy s.org then .ok none
    else
      let apLocalE : Except PyErr (Option (Option AuthProviderRec)) :=
        if natTruthy s.ap then
          match findAuthProviderRec db (s.ap.getD 0) with
          | some r => .ok (some (some r))
          | none => .error .doesNotExist
        else if strTruthy s.p then .ok (some none)
        else .ok none
      match apLocalE with
      | .error e => .error e
      | .ok apLocal =>
        match findOrganization db (s.org.getD 0) with
        | none => .error .doesNotExist
        | some organization =>
          match apLocal with
          | none => .error .nameError
          | some auth_provider =>
            match AuthHelper.mkHelper mgr organization s.flow auth_provider s.p with
            | .error e => .error e
            | .ok helper => .ok (some helper)

/-- `AuthHelper.pipeline_is_valid` (lines 89–93): false when no (or an empty)
record is in the session, otherwise whether the stored `sig` equals the
freshly recomputed signature. -/
def pipeline_is_valid (h : AuthHelper) (req : Request) : Bool :=
  match req.session.auth with
  | none => false
  | some s => s.sig == some h.signature

/-- `AuthHelper.init_pipeline` (lines 95–104): the fresh pipeline record (the
`ap` entry is the provider id when an `auth_provider` is set, else `None`;
the `p` entry is always the resolved provider's key). -/
def init_pipeline (h : AuthHelper) : AuthSession :=
  { ap := h.auth_provider.map AuthProviderRec.id
    p := some h.provider.key
    org := some h.organization.id
    idx := -1
    sig := some h.signature
    flow := h.flow
    state := [] }

/-- `AuthHelper.init_pipeline` lines 105–106: writing the fresh record into
the session store and marking it modified. -/
def init_pipeline_run (h : AuthHelper) (req : Request) : Request :=
  { req with session := { auth := some (init_pipeline h), is_modified := true } }

/-- Python list indexing `l[i]`: negative indices count from the end,
anything further out raises `IndexError` (`none` here). -/
def pyIndex (l : List AuthView) (i : Int) : Option AuthView :=
  if i < 0 then
    if 0 ≤ i + l.length then l.get? (i + l.length).toNat else none
  else l.get? i.toNat

/-- The session store after `session['idx'] += 1` and
`is_modified = True` (lines 119–120). -/
def bumped (req : Request) (s : AuthSession) : Request :=
  { req with session :=
      { auth := some { s with idx := s.idx + 1 }, is_modified := true } }

/-- The session store after `del self.request.session['auth']` and
`is_modified = True` (lines 139–140). -/
def clearAuth (req : Request) : Request :=
  { req with session := { auth := none, is_modified := true } }

/-- Django's `transaction.atomic` decorator: the body threads the database
through its writes; when the body raises, the transaction rolls back and the
caller observes the original database. -/
def runAtomic (db : Database)
    (body : Database → (Except PyErr Response) × Database) :
    (Except PyErr Response) × Database :=
  match body db with
  | (.ok r, db') => (.ok r, db')
  | (.error e, _) => (.error e, db)

/- ### Finish resolvers -/

/-- The body of `AuthHelper._finish_login_pipeline` (lines 145–191), before
the `transaction.atomic` wrapper.  On the missing-identity branch the code
creates the user, the identity, the membership and the audit entry — but
reads `auth_provider.default_role` (an `AttributeError` when the helper has
no auth provider), and afterwards evaluates `auth_identity.user` although
`auth_identity` was never bound on this branch (an unbound-local error).  On
the existing-identity branch, a data difference (against
`identity.get('data', {})`) triggers an in-place update reading
`identity['data']` (a `KeyError` when the `data` key is absent); the user is
then authenticated (`login`, which touches no `auth` session key) and the
login redirect returned. -/
def finish_login_pipeline_body (h : AuthHelper) (req : Request)
    (identity : Identity) (db : Database) :
    (Except PyErr Response) × Database :=
  match findAuthIdentity db (h.auth_provider.map AuthProviderRec.id) identity.id with
  | none =>
    let user : UserRec :=
      { id := db.nextId, email := identity.email,
        first_name := identity.name, is_managed := true }
    let db1 := { db with nextId := db.nextId + 1, users := db.users ++ [user] }
    let ai : AuthIdentityRec :=
      { id := db1.nextId, authProviderId := h.auth_provider.map AuthProviderRec.id,
        userId := user.id, ident := identity.id, data := [] }
    let db2 := { db1 with
      nextId := db1.nextId + 1
      authIdentities := db1.authIdentities ++ [ai] }
    match h.auth_provider with
    | none => (.error .attributeError, db2)
    | some ap =>
      let om : OrgMemberRec :=
        { id := db2.nextId, organizationId := h.organization.id,
          role := ap.default_role, userId := user.id, has_global_access := true }
      let db3 := { db2 with
        nextId := db2.nextId + 1
        orgMembers := db2.orgMembers ++ [om] }
      let audit : AuditRec :=
        { organizationId := h.organization.id, actorUserId := user.id,
          ip := req.remoteAddr, targetObject := some om.id,
          targetUser := some om.userId, event := .MEMBER_ADD }
      let db4 := { db3 with auditLogs := db3.auditLogs ++ [audit] }
      (.error .unboundLocal, db4)
  | some auth_identity =>
    if auth_identity.data ≠ identity.data.getD [] then
      match identity.data with
      | none => (.error .keyError, db)
      | some d =>
        let db' := { db with authIdentities :=
          db.authIdentities.map (fun r =>
            if r.id == auth_identity.id then { r with data := d } else r) }
        (.ok (.redirect (str "login-redirect") []), db')
    else
      (.ok (.redirect (str "login-redirect") []), db)

/-- `AuthHelper._finish_login_pipeline` with its `@transaction.atomic`
decorator (line 144). -/
def finish_login_pipeline (h : AuthHelper) (db : Database) (req : Request)
    (identity : Identity) : (Except PyErr Response) × Database :=
  runAtomic db (finish_login_pipeline_body h req identity)

/-- The body of `AuthHelper._finish_setup_pipeline` (lines 194–226), before
the `transaction.atomic` wrapper: builds the config from the session state
blob, creates the provider configuration, upserts the identity of the
currently authenticated user (keyed by user + ident + provider, `data` the
only mutable field), writes the SSO_ENABLE audit entry and redirects to the
organization's auth-settings page. -/
def finish_setup_pipeline_body (h : AuthHelper) (req : Request)
    (identity : Identity) (db : Database) :
    (Except PyErr Response) × Database :=
  match req.session.auth with
  | none => (.error .keyError, db)
  | some s =>
    let config := h.provider.build_config s.state
    let ap : AuthProviderRec :=
      { id := db.nextId, organizationId := h.organization.id,
        providerKey := h.provider.key, config := config,
        default_role := AUTH_PROVIDER_DEFAULT_ROLE }
    let db1 := { db with
      nextId := db.nextId + 1
      authProviderRecs := db.authProviderRecs ++ [ap] }
    let db2 :=
      match db1.authIdentities.find? (fun ai =>
          ai.userId == req.user && ai.ident == identity.id
            && ai.authProviderId == some ap.id) with
      | some ex =>
        { db1 with authIdentities :=
            db1.authIdentities.map (fun (r : AuthIdentityRec) =>
              if r.id == ex.id then { r with data := identity.data.getD [] } else r) }
      | none =>
        let ai : AuthIdentityRec :=
          { id := db1.nextId, authProviderId := some ap.id, userId := req.user,
            ident := identity.id, data := identity.data.getD [] }
        { db1 with
          nextId := db1.nextId + 1
          authIdentities := db1.authIdentities ++ [ai] }
    let audit : AuditRec :=
      { organizationId := h.organization.id, actorUserId := req.user,
        ip := req.remoteAddr, targetObject := some ap.id,
        targetUser := none, event := .SSO_ENABLE }
    let db3 := { db2 with auditLogs := db2.auditLogs ++ [audit] }
    (.ok (.redirect (str "sentry-organization-auth-settings") [h.organization.slug]), db3)

/-- `AuthHelper._finish_setup_pipeline` with its `@transaction.atomic`
decorator (line 193). -/
def finish_setup_pipeline (h : AuthHelper) (db : Database) (req : Request)
    (identity : Identity) : (Except PyErr Response) × Database :=
  runAtomic db (finish_setup_pipeline_body h req identity)

/- ### Orchestrator control flow -/

/-- `AuthHelper.finish_pipeline` (lines 128–142): builds the identity from
the stored state blob, branches on the *session's* `flow` entry into the
matching resolver, and — only after the resolver has returned — deletes the
record and marks the session modified.  A resolver-level exception
propagates before the cleanup; on an unrecognized flow no branch assigns
`response`, the cleanup still runs, and `return response` then fails with an
unbound-local error. -/
def finish_pipeline (h : AuthHelper) (db : Database) (req : Request) :
    (Except PyErr Response) × Request × Database :=
  match req.session.auth with
  | none => (.error .keyError, req, db)
  | some s =>
    let identity := h.provider.build_identity s.state
    if s.flow = FLOW_LOGIN then
      match finish_login_pipeline h db req identity with
      | (.ok r, db') => (.ok r, clearAuth req, db')
      | (.error e, db') => (.error e, req, db')
    else if s.flow = FLOW_SETUP_PROVIDER then
      match finish_setup_pipeline h db req identity with
      | (.ok r, db') => (.ok r, clearAuth req, db')
      | (.error e, db') => (.error e, req, db')
    else
      (.error .unboundLocal, clearAuth req, db)

/-- `AuthHelper.next_step` (lines 115–126): increments the stored index and
marks the session dirty; when the new index equals the step count it invokes
`finish_pipeline`, otherwise it dispatches the step at the new index and
returns that step's outcome. -/
def next_step (h : AuthHelper) (db : Database) (req : Request) :
    (Except PyErr Response) × Request × Database :=
  match req.session.auth with
  | none => (.error .keyError, req, db)
  | some s =>
    let req1 := bumped req s
    if s.idx + 1 = (h.pipeline.length : Int) then
      finish_pipeline h db req1
    else
      match pyIndex h.pipeline (s.idx + 1) with
      | none => (.error .indexError, req1, db)
      | some view => (.ok view.dispatchResult, req1, db)

/-- `AuthHelper.error` (lines 228–239): picks the flow-appropriate redirect
from the *session's* `flow` entry; on an unrecognized flow `redirect_uri` is
never assigned and the final return fails with an unbound-local error (the
flash message, sent before the return, is not part of the returned value). -/
def error (h : AuthHelper) (req : Request) (_message : Str) :
    Except PyErr Response :=
  match req.session.auth with
  | none => .error .keyError
  | some s =>
    if s.flow = FLOW_LOGIN then
      .ok (.redirect (str "sentry-auth-organization") [h.organization.slug])
    else if s.flow = FLOW_SETUP_PROVIDER then
      .ok (.redirect (str "sentry-organization-auth-settings") [h.organization.slug])
    else
      .error .unboundLocal

/-- Association-list update backing `state[key] = value`. -/
def blobSet (b : StateBlob) (k v : Str) : StateBlob :=
  if b.any (fun kv => kv.1 == k) then
    b.map (fun kv => if kv.1 == k then (k, v) else kv)
  else b ++ [(k, v)]

/-- `AuthHelper.bind_state` (lines 241–243): writes into the record's state
blob and marks the session modified; raises `KeyError` when no record is in
the session. -/
def bind_state (req : Request) (k v : Str) : Except PyErr Request :=
  match req.session.auth with
  | none => .error .keyError
  | some s =>
    .ok { req with session :=
      { auth := some { s with state := blobSet s.state k v }, is_modified := true } }

/-- `AuthHelper.fetch_state` (lines 245–246): reads from the record's state
blob; raises `KeyError` when no record is in the session. -/
def fetch_state (req : Request) (k : Str) : Except PyErr (Option Str) :=
  match req.session.auth with
  | none => .error .keyError
  | some s => .ok ((s.state.find? (fun kv => kv.1 == k)).map Prod.snd)

/-- Iterated application of `next_step`, collecting each call's result (the
pipeline is driven by one `next_step` per inbound request). -/
def next_steps (h : AuthHelper) : Nat → Database → Request →
    (List (Except PyErr Response)) × Request × Database
  | 0, db, req => ([], req, db)
  | n + 1, db, req =>
    let (outs, req', db') := next_steps h n db req
    let (o, req'', db'') := next_step h db' req'
    (outs ++ [o], req'', db'')

/-- The expected results of the first `k` calls while the pipeline is merely
dispatching steps 0, 1, … (no finish reached). -/
def dispatchOuts (h : AuthHelper) (k : Nat) : List (Except PyErr Response) :=
  (List.range k).map (fun j =>
    match h.pipeline.get? j with
    | some v => .ok v.dispatchResult
    | none => .error .indexError)

/-- The request after `k` dispatching calls on a freshly initialized
pipeline: the record's index has moved from `-1` to `k - 1`. -/
def reqAt (h : AuthHelper) (req0 : Request) (k : Nat) : Request :=
  { req0 with session :=
      { auth := some { init_pipeline h with idx := (k : Int) - 1 },
        is_modified := true } }

/- ### Concrete fixtures -/

/-- A sample organization. -/
def exOrg : OrganizationRec := { id := 1, slug := str "acme" }

/-- A sample identity as built by the providers below. -/
def exIdentity : Identity :=
  { id := str "ext-user", email := str "user@example.com", name := none, data := none }

/-- A step whose identifier is `"x"`. -/
def exViewX : AuthView := { ident := str "x", dispatchResult := .redirect (str "step-x") [] }

/-- A step whose identifier is `"x x"` (identifiers are arbitrary strings;
nothing in the code forbids spaces). -/
def exViewXX : AuthView := { ident := str "x x", dispatchResult := .redirect (str "step-xx") [] }

/-- A single step used by the one-step pipelines. -/
def exViewS : AuthView := { ident := str "s", dispatchResult := .redirect (str "step-s") [] }

/-- Provider whose login pipeline is `["x", "x x"]`. -/
def exProviderA : Provider :=
  { key := str "kA", auth_pipeline := [exViewX, exViewXX], setup_pipeline := [exViewS],
    build_identity := fun _ => exIdentity, build_config := fun _ => [] }

/-- Provider whose login pipeline is the reordering `["x x", "x"]`. -/
def exProviderB : Provider :=
  { key := str "kB", auth_pipeline := [exViewXX, exViewX], setup_pipeline := [exViewS],
    build_identity := fun _ => exIdentity, build_config := fun _ => [] }

/-- Provider with the one-step pipeline `["s"]` for both flows. -/
def exProviderL : Provider :=
  { key := str "kL", auth_pipeline := [exViewS], setup_pipeline := [exViewS],
    build_identity := fun _ => exIdentity, build_config := fun _ => [] }

/-- The provider registry holding the sample providers. -/
def exManager : Manager :=
  [(str "kA", exProviderA), (str "kB", exProviderB), (str "kL", exProviderL)]

/-- The helper `__init__` builds for provider `kA`, login flow. -/
def exHelperA : AuthHelper :=
  { organization := exOrg, flow := FLOW_LOGIN, auth_provider := none,
    provider := exProviderA, pipeline := [exViewX, exViewXX],
    signature := signatureOf [str "x", str "x x"] }

/-- The helper `__init__` builds for provider `kB`, login flow. -/
def exHelperB : AuthHelper :=
  { organization := exOrg, flow := FLOW_LOGIN, auth_provider := none,
    provider := exProviderB, pipeline := [exViewXX, exViewX],
    signature := signatureOf [str "x x", str "x"] }

/-- A persisted provider configuration record. -/
def exAPRec : AuthProviderRec :=
  { id := 9, organizationId := 1, providerKey := str "kA", config := [],
    default_role := 50 }

/-- A helper constructed from a persisted `auth_provider` record. -/
def exHelperAP : AuthHelper :=
  { organization := exOrg, flow := FLOW_LOGIN, auth_provider := some exAPRec,
    provider := exProviderA, pipeline := [exViewX, exViewXX],
    signature := signatureOf [str "x", str "x x"] }

/-- A login-flow helper with a one-step pipeline and no persisted provider
(the setup-before-configuration situation with `flow = LOGIN`). -/
def hLogin : AuthHelper :=
  { organization := exOrg, flow := FLOW_LOGIN, auth_provider := none,
    provider := exProviderL, pipeline := [exViewS],
    signature := signatureOf [str "s"] }

/-- A setup-flow helper with a one-step pipeline. -/
def hSetup : AuthHelper :=
  { organization := exOrg, flow := FLOW_SETUP_PROVIDER, auth_provider := none,
    provider := exProviderL, pipeline := [exViewS],
    signature := signatureOf [str "s"] }

/-- An empty persistence store knowing only the sample organization. -/
def dbEmpty : Database :=
  { nextId := 0, users := [], authIdentities := [], orgMembers := [],
    authProviderRecs := [], organizations := [exOrg], auditLogs := [] }

/-- A request holding a freshly initialized login pipeline. -/
def reqLogin : Request :=
  { session := { auth := some (init_pipeline hLogin), is_modified := true },
    user := 7, remoteAddr := str "1.2.3.4" }

/-- A request holding a freshly initialized setup pipeline. -/
def reqSetup : Request :=
  { session := { auth := some (init_pipeline hSetup), is_modified := true },
    user := 7, remoteAddr := str "1.2.3.4" }

/-- An existing identity record matching `exIdentity`'s subject id, bound to
no provider record, with stored data different from newly supplied data. -/
def exAuthIdentity : AuthIdentityRec :=
  { id := 3, authProviderId := none, userId := 7, ident := str "ext-user",
    data := [(str "k", str "old")] }

/-- A store already holding `exAuthIdentity`. -/
def dbC7 : Database := { dbEmpty with authIdentities := [exAuthIdentity] }

/-- `exIdentity` with newly supplied provider data. -/
def exIdentityNew : Identity := { exIdentity with data := some [(str "k", str "new")] }

example : AuthHelper.mkHelper exManager exOrg FLOW_LOGIN none (some (str "kA")) =
    .ok exHelperA := rfl
example : AuthHelper.mkHelper exManager exOrg FLOW_LOGIN none (some (str "kB")) =
    .ok exHelperB := rfl
example : AuthHelper.mkHelper exManager exOrg FLOW_LOGIN (some exAPRec) none =
    .ok exHelperAP := rfl
example : AuthHelper.mkHelper exManager exOrg FLOW_LOGIN none (some (str "kL")) =
    .ok hLogin := rfl
example : AuthHelper.mkHelper exManager exOrg FLOW_SETUP_PROVIDER none (some (str "kL")) =
    .ok hSetup := rfl

example : finish_pipeline hLogin dbEmpty reqLogin =
    (.error .attributeError, reqLogin, dbEmpty) := by decide

example : (next_steps hLogin 3 dbEmpty reqLogin).2.1.session.auth =
    some { init_pipeline hLogin with idx := 2 } := by decide

example : (next_steps hLogin 2 dbEmpty reqLogin).1 =
    [.ok exViewS.dispatchResult, .error .attributeError] := by decide

example : pipeline_is_valid exHelperB
    { session := { auth := some (init_pipeline exHelperA), is_modified := true },
      user := 0, remoteAddr := [] } = true := by decide

example : (init_pipeline exHelperAP).ap = some 9 ∧
    (init_pipeline exHelperAP).p = some (str "kA") := by decide

example : get_for_request exManager dbEmpty
    { session := { auth := some { init_pipeline exHelperA with ap := some 5 }
                   is_modified := true },
      user := 0, remoteAddr := [] } =
    .error .doesNotExist := rfl

example : finish_login_pipeline hLogin dbC7 reqLogin exIdentityNew =
    (.ok (.redirect (str "login-redirect") []),
     { dbC7 with authIdentities :=
        [{ exAuthIdentity with data := [(str "k", str "new")] }] }) := by decide

example : (finish_pipeline hSetup dbEmpty reqSetup).1 =
    .ok (.redirect (str "sentry-organization-auth-settings") [str "acme"]) := by decide

example : (finish_pipeline hSetup dbEmpty reqSetup).2.1.session.auth = none := by decide

example : (next_steps hSetup 2 dbEmpty reqSetup).2.1.session.auth = none := by decide

example : (next_steps hSetup 3 dbEmpty reqSetup).1.getLast? =
    some (.error .keyError) := by decide

/- ### Unfolding lemmas for the orchestrator's control flow -/

lemma next_step_some (h : AuthHelper) (db : Database) (req : Request)
    (s : AuthSession) (hs : req.session.auth = some s) :
    next_step h db req =
      if s.idx + 1 = (h.pipeline.length : Int) then
        finish_pipeline h db (bumped req s)
      else
        match pyIndex h.pipeline (s.idx + 1) with
        | none => (.error .indexError, bumped req s, db)
        | some view => (.ok view.dispatchResult, bumped req s, db) := by
  unfold next_step
  rw [hs]

lemma next_step_none (h : AuthHelper) (db : Database) (req : Request)
    (hs : req.session.auth = none) :
    next_step h db req = (.error .keyError, req, db) := by
  unfold next_step
  rw [hs]

lemma finish_pipeline_some (h : AuthHelper) (db : Database) (req : Request)
    (s : AuthSession) (hs : req.session.auth = some s) :
    finish_pipeline h db req =
      (if s.flow = FLOW_LOGIN then
        match finish_login_pipeline h db req (h.provider.build_identity s.state) with
        | (.ok r, db') => (.ok r, clearAuth req, db')
        | (.error e, db') => (.error e, req, db')
      else if s.flow = FLOW_SETUP_PROVIDER then
        match finish_setup_pipeline h db req (h.provider.build_identity s.state) with
        | (.ok r, db') => (.ok r, clearAuth req, db')
        | (.error e, db') => (.error e, req, db')
      else
        (.error .unboundLocal, clearAuth req, db)) := by
  unfold finish_pipeline
  rw [hs]

lemma runAtomic_error (db : Database)
    (body : Database → (Except PyErr Response) × Database) (e : PyErr)
    (he : (runAtomic db body).1 = .error e) : (runAtomic db body).2 = db := by
  unfold runAtomic at he ⊢
  rcases hb : body db with ⟨res, db'⟩
  rw [hb] at he
  cases res with
  | ok r => simp at he
  | error e' => rfl

/-- The after-state of `finish_pipeline` is either the untouched request (a
resolver-level exception propagated before the cleanup) or the cleared one. -/
lemma finish_pipeline_req_cases (h : AuthHelper) (db : Database) (req : Request) :
    (finish_pipeline h db req).2.1 = req ∨
      (finish_pipeline h db req).2.1 = clearAuth req := by
  unfold finish_pipeline
  rcases hr : req.session.auth with _ | s
  · exact Or.inl rfl
  · by_cases h1 : s.flow = FLOW_LOGIN
    · simp only [h1, if_pos]
      rcases finish_login_pipeline h db req (h.provider.build_identity s.state)
        with ⟨res, db'⟩
      cases res with
      | ok r => exact Or.inr rfl
      | error e => exact Or.inl rfl
    · by_cases h2 : s.flow = FLOW_SETUP_PROVIDER
      · simp only [h1, h2, if_neg, if_pos]
        rcases finish_setup_pipeline h db req (h.provider.build_identity s.state)
          with ⟨res, db'⟩
        cases res with
        | ok r => exact Or.inr rfl
        | error e => exact Or.inl rfl
      · simp only [h1, h2, if_neg]
        exact Or.inr rfl

/- ### C5: the signature's algebraic properties -/

/-- C5 (counterexample): the identifier sequence `["x", "x x"]` and its
reordering `["x x", "x"]` are different sequences with the *same* signature —
the space-join sends both to `"x x x"`, so reordering does not always change
the signature. -/
theorem C5_counterexample :
    [str "x x", str "x"] = ([str "x", str "x x"]).reverse
    ∧ [str "x x", str "x"] ≠ [str "x", str "x x"]
    ∧ signatureOf [str "x x", str "x"] = signatureOf [str "x", str "x x"] := by
  decide

/-- C5 (amended): computing the signature twice over the same sequence is
deterministic; changing any single identifier changes the signature; and for
sequences of identifiers that do not contain the joining space, any change —
in particular any genuine reordering — changes the signature.  (Identifiers
containing a space can collide under reordering, see the counterexample.) -/
theorem C5_amended :
    (∀ l : List Str, signatureOf l = signatureOf l)
    ∧ (∀ (l : List Str) (i : Nat) (hi : i < l.length) (x : Str),
        x ≠ l.get ⟨i, hi⟩ → signatureOf (l.set i x) ≠ signatureOf l)
    ∧ (∀ l1 l2 : List Str, (∀ x ∈ l1, ' ' ∉ x) → (∀ x ∈ l2, ' ' ∉ x) →
        l1.length = l2.length → l1 ≠ l2 → signatureOf l1 ≠ signatureOf l2) := by
  refine ⟨fun _ => rfl, ?_, ?_⟩
  · intro l i hi x hx
    simpa [signatureOf, md5hexdigest] using join_single_change l i hi x hx
  · intro l1 l2 h1 h2 hlen hne hsig
    exact hne (join_inj_of_space_free l1 l2 h1 h2 hlen
      (by simpa [signatureOf, md5hexdigest] using hsig))

/-- Witness for C5 (amended): changing the first identifier of `["a", "b"]`
to `"c"` changes the signature. -/
theorem C5_amended_witness :
    signatureOf ([str "a", str "b"].set 0 (str "c")) ≠ signatureOf [str "a", str "b"] :=
  C5_amended.2.1 [str "a", str "b"] 0 (by decide) (str "c") (by decide)

/- ### C4: pipeline_is_valid -/

/-- C4 (counterexample): a helper whose resolved step sequence is
`["x x", "x"]` accepts (returns `true` on) a session record whose signature
was computed over the different sequence `["x", "x x"]`, because the two
sequences space-join to the same string. -/
theorem C4_counterexample :
    exHelperB.pipeline.map AuthView.ident ≠ exHelperA.pipeline.map AuthView.ident
    ∧ pipeline_is_valid exHelperB
        { session := { auth := some (init_pipeline exHelperA), is_modified := true },
          user := 0, remoteAddr := [] } = true := by
  decide

/-- C4 (amended): with a record in the session whose stored `sig` was
computed over the identifier sequence `A`, and a helper whose signature was
computed over the sequence `B`, `pipeline_is_valid` returns `true` exactly
when the space-joined identifier strings of `A` and `B` coincide.  Equal
sequences therefore always validate, but so do distinct sequences whose
space-joins collide; only a difference visible in the joined string makes it
return `false`. -/
theorem C4_amended (A B : List Str) (h : AuthHelper) (req : Request)
    (s : AuthSession) (hs : req.session.auth = some s)
    (hsig : s.sig = some (signatureOf A)) (hB : h.signature = signatureOf B) :
    (pipeline_is_valid h req = true ↔ joinIdents A = joinIdents B) := by
  unfold pipeline_is_valid
  rw [hs]
  simp [hsig, hB, signatureOf, md5hexdigest]

/-- Witness for C4 (amended): a helper validates a record initialized by
itself. -/
theorem C4_amended_witness :
    pipeline_is_valid exHelperA
      { session := { auth := some (init_pipeline exHelperA), is_modified := true },
        user := 0, remoteAddr := [] } = true :=
  (C4_amended [str "x", str "x x"] [str "x", str "x x"] exHelperA _ _
    rfl rfl rfl).mpr rfl

/- ### C2: the ap/p invariant -/

/-- C2 (counterexample): when the orchestrator holds a persisted
`auth_provider`, the record `init_pipeline` writes has *both* the `ap` entry
and the `p` entry set, so "exactly one of `ap`/`p` is set" fails on the very
first write. -/
theorem C2_counterexample :
    (init_pipeline exHelperAP).ap.isSome = true
    ∧ (init_pipeline exHelperAP).p.isSome = true := by
  decide

/-- C2 (amended): in every record produced by `init_pipeline` the `p` entry
is always set (to the resolved provider's key) and the `ap` entry is set
exactly when the orchestrator holds an `auth_provider` — so at least one,
and sometimes both, of the two are set; and both entries are preserved
unchanged by `next_step` (whenever a record survives the call) and by
`bind_state`. -/
theorem C2_amended :
    (∀ h : AuthHelper, (init_pipeline h).p = some h.provider.key
      ∧ (init_pipeline h).ap.isSome = h.auth_provider.isSome)
    ∧ (∀ (h : AuthHelper) (db : Database) (req : Request) (s : AuthSession),
        req.session.auth = some s →
        ((next_step h db req).2.1.session.auth).all
          (fun s' => s'.ap == s.ap && s'.p == s.p) = true)
    ∧ (∀ (req : Request) (k v : Str) (s : AuthSession) (r' : Request),
        req.session.auth = some s → bind_state req k v = .ok r' →
        (r'.session.auth).all (fun s' => s'.ap == s.ap && s'.p == s.p) = true) := by
  refine ⟨?_, ?_, ?_⟩
  · intro h
    refine ⟨rfl, ?_⟩
    unfold init_pipeline
    cases h.auth_provider <;> rfl
  · intro h db req s hs
    rw [next_step_some h db req s hs]
    by_cases hidx : s.idx + 1 = (h.pipeline.length : Int)
    · rw [if_pos hidx]
      rcases finish_pipeline_req_cases h db (bumped req s) with hc | hc <;> rw [hc]
      · simp [bumped]
      · simp [clearAuth]
    · rw [if_neg hidx]
      rcases pyIndex h.pipeline (s.idx + 1) with _ | view <;> simp [bumped]
  · intro req k v s r' hs hb
    unfold bind_state at hb
    rw [hs] at hb
    simp only [Except.ok.injEq] at hb
    subst hb
    simp

/-- Witness for C2 (amended): the preservation along `next_step` at a
concrete record. -/
theorem C2_amended_witness :
    ((next_step exHelperA dbEmpty
        { session := { auth := some (init_pipeline exHelperA), is_modified := true },
          user := 0, remoteAddr := [] }).2.1.session.auth).all
      (fun s' => s'.ap == (init_pipeline exHelperA).ap
        && s'.p == (init_pipeline exHelperA).p) = true :=
  C2_amended.2.1 exHelperA dbEmpty _ _ rfl

/- ### C3: get_for_request -/

/-- C3 (counterexample): a session record that references auth-provider id 5
— which cannot be resolved in the store — makes `get_for_request` raise
`DoesNotExist` instead of returning `None`. -/
theorem C3_counterexample :
    get_for_request exManager dbEmpty
      { session := { auth := some { init_pipeline exHelperA with ap := some 5 }
                     is_modified := true },
        user := 0, remoteAddr := [] } = .error .doesNotExist := rfl

/-- C3 (amended): `get_for_request` returns `None` without raising when no
pipeline record exists or when the record's `org` entry is absent/falsy; but
when a record with a truthy `org` references an auth-provider id that cannot
be resolved, it raises `DoesNotExist` rather than returning `None`, and when
the record's organization id itself cannot be resolved (whether the record
carries no truthy auth-provider id, or one that does resolve), it likewise
raises `DoesNotExist` from the organization lookup. -/
theorem C3_amended :
    (∀ (mgr : Manager) (db : Database) (req : Request),
        req.session.auth = none → get_for_request mgr db req = .ok none)
    ∧ (∀ (mgr : Manager) (db : Database) (req : Request) (s : AuthSession),
        req.session.auth = some s → natTruthy s.org = false →
        get_for_request mgr db req = .ok none)
    ∧ (∀ (mgr : Manager) (db : Database) (req : Request) (s : AuthSession) (a : Nat),
        req.session.auth = some s → natTruthy s.org = true → s.ap = some a →
        a ≠ 0 → findAuthProviderRec db a = none →
        get_for_request mgr db req = .error .doesNotExist)
    ∧ (∀ (mgr : Manager) (db : Database) (req : Request) (s : AuthSession) (o : Nat),
        req.session.auth = some s → s.org = some o → o ≠ 0 →
        natTruthy s.ap = false → findOrganization db o = none →
        get_for_request mgr db req = .error .doesNotExist)
    ∧ (∀ (mgr : Manager) (db : Database) (req : Request) (s : AuthSession)
        (a : Nat) (r : AuthProviderRec) (o : Nat),
        req.session.auth = some s → s.org = some o → o ≠ 0 →
        s.ap = some a → a ≠ 0 → findAuthProviderRec db a = some r →
        findOrganization db o = none →
        get_for_request mgr db req = .error .doesNotExist) := by
  refine ⟨?_, ?_, ?_, ?_, ?_⟩
  · intro mgr db req hnone
    unfold get_for_request
    rw [hnone]
  · intro mgr db req s hs horg
    unfold get_for_request
    rw [hs]
    simp [horg]
  · intro mgr db req s a hs horg hap ha hfind
    unfold get_for_request
    rw [hs]
    have htr : natTruthy s.ap = true := by
      rw [hap]
      simpa [natTruthy] using ha
    simp only [horg, Bool.not_true, Bool.false_eq_true, if_false, htr, if_true]
    rw [hap]
    simp [hfind]
  · intro mgr db req s o hs hso ho hap hfind
    unfold get_for_request
    rw [hs]
    simp only [hso]
    have horg : natTruthy (some o) = true := by simpa [natTruthy] using ho
    simp only [horg, Bool.not_true, Bool.false_eq_true, if_false, hap,
      Option.getD_some, hfind]
    by_cases hp : strTruthy s.p = true <;> simp [hp]
  · intro mgr db req s a r o hs hso ho hap ha hfindap hfind
    unfold get_for_request
    rw [hs]
    have horg : natTruthy s.org = true := by
      rw [hso]
      simpa [natTruthy] using ho
    have htr : natTruthy s.ap = true := by
      rw [hap]
      simpa [natTruthy] using ha
    simp only [horg, Bool.not_true, Bool.false_eq_true, if_false, htr, if_true]
    rw [hap]
    simp [hfindap, hso, hfind]

/-- Witness for C3 (amended): no record in the session yields `None`. -/
theorem C3_amended_witness :
    get_for_request exManager dbEmpty
      { session := { auth := none, is_modified := false },
        user := 0, remoteAddr := [] } = .ok none :=
  C3_amended.1 exManager dbEmpty _ rfl

/- ### C10: flow is read from the session record -/

/-- C10 (confirmed): `finish_pipeline` and `error` branch on the session
record's `flow` entry (the orchestrator's own `flow` field is irrelevant to
both), and on a record whose `flow` is neither `FLOW_LOGIN` nor
`FLOW_SETUP_PROVIDER` both fail with the unbound-local error of the never
assigned `response`/`redirect_uri` instead of returning a terminal
response. -/
theorem C10 :
    (∀ (h : AuthHelper) (db : Database) (req : Request) (s : AuthSession),
        req.session.auth = some s → s.flow ≠ FLOW_LOGIN →
        s.flow ≠ FLOW_SETUP_PROVIDER →
        (finish_pipeline h db req).1 = .error .unboundLocal)
    ∧ (∀ (h : AuthHelper) (req : Request) (msg : Str) (s : AuthSession),
        req.session.auth = some s → s.flow ≠ FLOW_LOGIN →
        s.flow ≠ FLOW_SETUP_PROVIDER →
        error h req msg = .error .unboundLocal)
    ∧ (∀ (h : AuthHelper) (db : Database) (req : Request) (f' : Nat),
        finish_pipeline { h with flow := f' } db req = finish_pipeline h db req)
    ∧ (∀ (h : AuthHelper) (req : Request) (msg : Str) (f' : Nat),
        error { h with flow := f' } req msg = error h req msg) := by
  refine ⟨?_, ?_, ?_, ?_⟩
  · intro h db req s hs h1 h2
    rw [finish_pipeline_some h db req s hs]
    simp [h1, h2]
  · intro h req msg s hs h1 h2
    unfold error
    rw [hs]
    simp [h1, h2]
  · intro h db req f'
    rfl
  · intro h req msg f'
    rfl

/-- Witness for C10: a record whose stored `flow` is 3 makes
`finish_pipeline` fail with the unbound-local error. -/
theorem C10_witness :
    (finish_pipeline hLogin dbEmpty
      { session := { auth := some { init_pipeline hLogin with flow := 3 }
                     is_modified := true },
        user := 0, remoteAddr := [] }).1 = .error .unboundLocal :=
  C10.1 hLogin dbEmpty _ _ rfl (by decide) (by decide)

/- ### C1: clearing of the record by finish_pipeline -/

/-- C1 (counterexample): a resolver-level failure does *not* clear the
pipeline record.  With `flow = LOGIN`, no persisted `auth_provider` and no
existing identity, the login resolver raises (reading
`auth_provider.default_role` on `None`), the exception propagates out of
`finish_pipeline` before the `del`, and the record is still in the session
store afterwards. -/
theorem C1_counterexample :
    (finish_pipeline hLogin dbEmpty reqLogin).1 = .error .attributeError
    ∧ (finish_pipeline hLogin dbEmpty reqLogin).2.1.session.auth =
        some (init_pipeline hLogin) := by
  decide

/-- C1 (amended): when the flow-matching resolver returns successfully,
`finish_pipeline` unconditionally removes the pipeline record and marks the
session modified before returning the terminal response; but when the
resolver fails (raises), the failure propagates *before* the cleanup and the
pipeline record is left untouched in the session store. -/
theorem C1_amended (h : AuthHelper) (db : Database) (req : Request)
    (s : AuthSession) (hs : req.session.auth = some s) :
    (s.flow = FLOW_LOGIN →
      (∀ r db', finish_login_pipeline h db req (h.provider.build_identity s.state)
          = (.ok r, db') →
          finish_pipeline h db req = (.ok r, clearAuth req, db'))
      ∧ (∀ e db', finish_login_pipeline h db req (h.provider.build_identity s.state)
          = (.error e, db') →
          finish_pipeline h db req = (.error e, req, db')))
    ∧ (s.flow = FLOW_SETUP_PROVIDER →
      (∀ r db', finish_setup_pipeline h db req (h.provider.build_identity s.state)
          = (.ok r, db') →
          finish_pipeline h db req = (.ok r, clearAuth req, db'))
      ∧ (∀ e db', finish_setup_pipeline h db req (h.provider.build_identity s.state)
          = (.error e, db') →
          finish_pipeline h db req = (.error e, req, db'))) := by
  constructor
  · intro hflow
    constructor <;> intro x db' hres <;>
      rw [finish_pipeline_some h db req s hs] <;> simp [hflow, hres]
  · intro hflow
    constructor <;> intro x db' hres <;>
      rw [finish_pipeline_some h db req s hs] <;>
        simp [hflow, hres, FLOW_LOGIN, FLOW_SETUP_PROVIDER]

/-- Witness for C1 (amended): the failing-resolver clause at the concrete
login fixture — the record survives the failed finish. -/
theorem C1_amended_witness :
    finish_pipeline hLogin dbEmpty reqLogin =
      (.error .attributeError, reqLogin, dbEmpty) :=
  ((C1_amended hLogin dbEmpty reqLogin (init_pipeline hLogin) rfl).1 rfl).2
    .attributeError dbEmpty (by decide)

/- ### C6: next_step -/

/-- C6 (confirmed): on a session holding a record whose incremented index is
still within range, `next_step` increments the stored index by exactly one
and marks the session dirty (the `bumped` store), then — when the new index
equals the step count — invokes `finish_pipeline` on that store and returns
its result, and otherwise dispatches the step at the new index and returns
that step's outcome. -/
theorem C6 (h : AuthHelper) (db : Database) (req : Request) (s : AuthSession)
    (hs : req.session.auth = some s) (h0 : 0 ≤ s.idx + 1)
    (hle : s.idx + 1 ≤ (h.pipeline.length : Int)) :
    (s.idx + 1 = (h.pipeline.length : Int) →
        next_step h db req = finish_pipeline h db (bumped req s))
    ∧ (s.idx + 1 < (h.pipeline.length : Int) →
        (pyIndex h.pipeline (s.idx + 1)).isSome = true
        ∧ ∀ v, pyIndex h.pipeline (s.idx + 1) = some v →
            next_step h db req = (.ok v.dispatchResult, bumped req s, db)) := by
  constructor
  · intro heq
    rw [next_step_some h db req s hs, if_pos heq]
  · intro hlt
    have hnat : (s.idx + 1).toNat < h.pipeline.length := by omega
    have hpy : pyIndex h.pipeline (s.idx + 1) =
        some (h.pipeline.get ⟨(s.idx + 1).toNat, hnat⟩) := by
      unfold pyIndex
      rw [if_neg (by omega), List.get?_eq_get hnat]
    refine ⟨by rw [hpy]; rfl, ?_⟩
    intro v hv
    rw [next_step_some h db req s hs, if_neg (by omega), hv]

/-- Witness for C6: the first `next_step` on a freshly initialized two-step
pipeline dispatches step 0 and bumps the stored index to 0. -/
theorem C6_witness :
    next_step exHelperA dbEmpty
      { session := { auth := some (init_pipeline exHelperA), is_modified := true },
        user := 0, remoteAddr := [] } =
      (.ok exViewX.dispatchResult,
       bumped
         { session := { auth := some (init_pipeline exHelperA), is_modified := true },
           user := 0, remoteAddr := [] } (init_pipeline exHelperA),
       dbEmpty) :=
  ((C6 exHelperA dbEmpty _ _ rfl (by decide) (by decide)).2 (by decide)).2
    exViewX rfl

/- ### C7: in-place identity data update on the login finish -/

/-- C7 (confirmed): when an identity for (auth provider, external subject
id) already exists and its stored data differs from the newly supplied
data, the login resolver updates that identity's data in place — the user,
membership and audit tables as well as the number of identity records are
unchanged — and returns the normal login redirect (no error). -/
theorem C7 (h : AuthHelper) (db : Database) (req : Request)
    (identity : Identity) (ai : AuthIdentityRec) (d : Data)
    (hfind : findAuthIdentity db (h.auth_provider.map AuthProviderRec.id)
        identity.id = some ai)
    (hd : identity.data = some d) (hne : ai.data ≠ d) :
    finish_login_pipeline h db req identity =
      (.ok (.redirect (str "login-redirect") []),
       { db with authIdentities := db.authIdentities.map (fun r =>
           if r.id == ai.id then { r with data := d } else r) })
    ∧ (finish_login_pipeline h db req identity).2.users = db.users
    ∧ (finish_login_pipeline h db req identity).2.orgMembers = db.orgMembers
    ∧ (finish_login_pipeline h db req identity).2.auditLogs = db.auditLogs
    ∧ (finish_login_pipeline h db req identity).2.authIdentities.length
        = db.authIdentities.length := by
  have hbody : finish_login_pipeline_body h req identity db =
      (.ok (.redirect (str "login-redirect") []),
       { db with authIdentities := db.authIdentities.map (fun r =>
           if r.id == ai.id then { r with data := d } else r) }) := by
    unfold finish_login_pipeline_body
    rw [hfind]
    simp [hd, hne]
  have hmain : finish_login_pipeline h db req identity =
      (.ok (.redirect (str "login-redirect") []),
       { db with authIdentities := db.authIdentities.map (fun r =>
           if r.id == ai.id then { r with data := d } else r) }) := by
    unfold finish_login_pipeline runAtomic
    rw [hbody]
  refine ⟨hmain, ?_, ?_, ?_, ?_⟩ <;> rw [hmain] <;> simp

/-- Witness for C7: the concrete existing-identity fixture gets its data
updated in place. -/
theorem C7_witness :
    finish_login_pipeline hLogin dbC7 reqLogin exIdentityNew =
      (.ok (.redirect (str "login-redirect") []),
       { dbC7 with authIdentities := dbC7.authIdentities.map (fun r =>
           if r.id == exAuthIdentity.id then
             { r with data := [(str "k", str "new")] } else r) }) :=
  (C7 hLogin dbC7 reqLogin exIdentityNew exAuthIdentity [(str "k", str "new")]
    rfl rfl (by decide)).1

/- ### C8: resolver atomicity -/

/-- C8 (confirmed): both finish resolvers run inside a single transaction
boundary — whenever a resolver fails, the caller observes the database
unchanged (no partial subset of the writes); and a successful setup finish
performs its provider-record and audit writes together (one of each), with
the identity upsert adding at most one record. -/
theorem C8 :
    (∀ (h : AuthHelper) (db : Database) (req : Request) (identity : Identity)
        (e : PyErr),
        (finish_login_pipeline h db req identity).1 = .error e →
        (finish_login_pipeline h db req identity).2 = db)
    ∧ (∀ (h : AuthHelper) (db : Database) (req : Request) (identity : Identity)
        (e : PyErr),
        (finish_setup_pipeline h db req identity).1 = .error e →
        (finish_setup_pipeline h db req identity).2 = db)
    ∧ (∀ (h : AuthHelper) (db : Database) (req : Request) (identity : Identity)
        (r : Response),
        (finish_setup_pipeline h db req identity).1 = .ok r →
        (finish_setup_pipeline h db req identity).2.authProviderRecs.length
            = db.authProviderRecs.length + 1
        ∧ (finish_setup_pipeline h db req identity).2.auditLogs.length
            = db.auditLogs.length + 1
        ∧ ((finish_setup_pipeline h db req identity).2.authIdentities.length
              = db.authIdentities.length + 1
           ∨ (finish_setup_pipeline h db req identity).2.authIdentities.length
              = db.authIdentities.length)) := by
  refine ⟨?_, ?_, ?_⟩
  · intro h db req identity e he
    exact runAtomic_error db _ e he
  · intro h db req identity e he
    exact runAtomic_error db _ e he
  · intro h db req identity r hok
    unfold finish_setup_pipeline runAtomic finish_setup_pipeline_body
    rcases hr : req.session.auth with _ | s
    · have hko : (finish_setup_pipeline h db req identity).1 = .error .keyError := by
        unfold finish_setup_pipeline runAtomic finish_setup_pipeline_body
        rw [hr]
      rw [hko] at hok
      simp at hok
    · simp only
      split
      · simp
      · simp

/-- Witness for C8: the failing login finish at the concrete fixture leaves
the store untouched (its four creates are rolled back). -/
theorem C8_witness :
    (finish_login_pipeline hLogin dbEmpty reqLogin exIdentity).2 = dbEmpty :=
  C8.1 hLogin dbEmpty reqLogin exIdentity .attributeError (by decide)

/- ### C9: the pipeline run as a whole -/

lemma next_steps_succ_eq (h : AuthHelper) (n : Nat) (db : Database)
    (req : Request) (outs : List (Except PyErr Response)) (req' : Request)
    (db' : Database) (hn : next_steps h n db req = (outs, req', db')) :
    next_steps h (n + 1) db req =
      (outs ++ [(next_step h db' req').1], (next_step h db' req').2) := by
  unfold next_steps
  rw [hn]

lemma next_step_dispatch (h : AuthHelper) (db : Database) (req : Request)
    (s : AuthSession) (hs : req.session.auth = some s)
    (n : Nat) (hidx : s.idx + 1 = (n : Int)) (hlt : n < h.pipeline.length) :
    next_step h db req =
      (.ok (h.pipeline.get ⟨n, hlt⟩).dispatchResult, bumped req s, db) := by
  rw [next_step_some h db req s hs, hidx]
  rw [if_neg (by omega)]
  have hpy : pyIndex h.pipeline (n : Int) = some (h.pipeline.get ⟨n, hlt⟩) := by
    unfold pyIndex
    rw [if_neg (by omega)]
    simp [List.get?_eq_get hlt]
  rw [hpy]

lemma dispatchOuts_succ (h : AuthHelper) (n : Nat) (hlt : n < h.pipeline.length) :
    dispatchOuts h (n + 1) =
      dispatchOuts h n ++ [.ok (h.pipeline.get ⟨n, hlt⟩).dispatchResult] := by
  unfold dispatchOuts
  rw [List.range_succ, List.map_append]
  simp [List.getElem?_eq_getElem hlt]

lemma bumped_reqAt (h : AuthHelper) (req0 : Request) (n : Nat) :
    bumped (reqAt h req0 n) { init_pipeline h with idx := (n : Int) - 1 } =
      reqAt h req0 (n + 1) := by
  unfold bumped reqAt
  have hidx : ((n : Int) - 1) + 1 = ((n + 1 : Nat) : Int) - 1 := by push_cast; ring
  simp [hidx]

/-- While the incremented index stays below the step count, each call
dispatches the next step and only moves the stored index. -/
lemma next_steps_dispatch_phase (h : AuthHelper) (db : Database) (req0 : Request)
    (hauth : req0.session.auth = some (init_pipeline h))
    (hmod : req0.session.is_modified = true) :
    ∀ k, k ≤ h.pipeline.length →
      next_steps h k db req0 = (dispatchOuts h k, reqAt h req0 k, db) := by
  intro k
  induction k with
  | zero =>
    intro _
    have hre : reqAt h req0 0 = req0 := by
      obtain ⟨⟨a, m⟩, u, ra⟩ := req0
      simp only at hauth hmod
      subst hauth
      subst hmod
      unfold reqAt
      simp [init_pipeline]
    rw [hre]
    rfl
  | succ n ih =>
    intro hle
    have hlt : n < h.pipeline.length := hle
    have hstep := next_step_dispatch h db (reqAt h req0 n)
      { init_pipeline h with idx := (n : Int) - 1 } rfl n
      (by show ((n : Int) - 1) + 1 = (n : Int); ring) hlt
    rw [next_steps_succ_eq h n db req0 _ _ _ (ih (Nat.le_of_lt hlt)), hstep,
      dispatchOuts_succ h n hlt, bumped_reqAt h req0 n]

/-- The setup resolver always completes with the auth-settings redirect. -/
lemma finish_setup_ok (h : AuthHelper) (db : Database) (req : Request)
    (s : AuthSession) (hs : req.session.auth = some s) (identity : Identity) :
    ∃ db', finish_setup_pipeline h db req identity =
      (.ok (.redirect (str "sentry-organization-auth-settings")
        [h.organization.slug]), db') := by
  unfold finish_setup_pipeline runAtomic finish_setup_pipeline_body
  rw [hs]
  exact ⟨_, rfl⟩

/-- A `next_step` whose incremented index reaches the step count on a
setup-flow record finishes successfully and clears the record. -/
lemma next_step_finish_setup (h : AuthHelper) (db : Database) (req : Request)
    (s : AuthSession) (hs : req.session.auth = some s)
    (hidx : s.idx + 1 = (h.pipeline.length : Int))
    (hflow : s.flow = FLOW_SETUP_PROVIDER) :
    ∃ db', next_step h db req =
      (.ok (.redirect (str "sentry-organization-auth-settings")
        [h.organization.slug]), clearAuth req, db') := by
  rw [next_step_some h db req s hs, if_pos hidx]
  have hsb : (bumped req s).session.auth = some { s with idx := s.idx + 1 } := rfl
  rw [finish_pipeline_some h db (bumped req s) _ hsb]
  have hf : ({ s with idx := s.idx + 1 } : AuthSession).flow = FLOW_SETUP_PROVIDER :=
    hflow
  rw [hf]
  rw [if_neg (show ¬(FLOW_SETUP_PROVIDER = FLOW_LOGIN) by decide), if_pos rfl]
  obtain ⟨db', hok⟩ := finish_setup_ok h db (bumped req s) _ hsb
    (h.provider.build_identity ({ s with idx := s.idx + 1 } : AuthSession).state)
  refine ⟨db', ?_⟩
  rw [hok]
  rfl

/-- One call past the step count on a fresh setup pipeline finishes: the
outcome list gains the setup redirect and the record is gone. -/
lemma next_steps_finish (h : AuthHelper) (db : Database) (req0 : Request)
    (hflow : h.flow = FLOW_SETUP_PROVIDER)
    (hauth : req0.session.auth = some (init_pipeline h))
    (hmod : req0.session.is_modified = true) :
    ∃ db', next_steps h (h.pipeline.length + 1) db req0 =
      (dispatchOuts h h.pipeline.length ++
        [.ok (.redirect (str "sentry-organization-auth-settings")
          [h.organization.slug])],
       clearAuth req0, db') := by
  have hN := next_steps_dispatch_phase h db req0 hauth hmod h.pipeline.length le_rfl
  obtain ⟨db', hstep⟩ := next_step_finish_setup h db (reqAt h req0 h.pipeline.length)
    { init_pipeline h with idx := (h.pipeline.length : Int) - 1 } rfl
    (by show ((h.pipeline.length : Int) - 1) + 1 = (h.pipeline.length : Int); ring)
    hflow
  refine ⟨db', ?_⟩
  rw [next_steps_succ_eq h h.pipeline.length db req0 _ _ _ hN, hstep]
  rfl

/-- After the finish, every further call is rejected with `KeyError` and
changes nothing. -/
lemma next_steps_after_finish (h : AuthHelper) (db : Database) (req0 : Request)
    (hflow : h.flow = FLOW_SETUP_PROVIDER)
    (hauth : req0.session.auth = some (init_pipeline h))
    (hmod : req0.session.is_modified = true) :
    ∃ db', ∀ m, next_steps h (h.pipeline.length + 1 + m) db req0 =
      (dispatchOuts h h.pipeline.length ++
        [.ok (.redirect (str "sentry-organization-auth-settings")
          [h.organization.slug])] ++ List.replicate m (.error .keyError),
       clearAuth req0, db') := by
  obtain ⟨db', h1⟩ := next_steps_finish h db req0 hflow hauth hmod
  refine ⟨db', ?_⟩
  intro m
  induction m with
  | zero => simpa using h1
  | succ m ihm =>
    rw [show h.pipeline.length + 1 + (m + 1) = (h.pipeline.length + 1 + m) + 1
      from rfl]
    rw [next_steps_succ_eq h _ db req0 _ _ _ ihm]
    rw [next_step_none h db' (clearAuth req0) rfl]
    simp [List.replicate_succ', List.append_assoc]

/-- C9 (counterexample): a login pipeline of 1 step on an empty store: the
2nd `next_step` invokes the finish, whose resolver fails, leaving the record
behind; a 3rd `next_step` then pushes the *stored* index to 2 — beyond the
step count — so "the stored stepIndex never exceeds the step count" is
false. -/
theorem C9_counterexample :
    hLogin.pipeline.length = 1
    ∧ (next_steps hLogin 2 dbEmpty reqLogin).1.getLast? =
        some (.error .attributeError)
    ∧ (next_steps hLogin 3 dbEmpty reqLogin).2.1.session.auth =
        some { init_pipeline hLogin with idx := 2 }
    ∧ ((next_steps hLogin 3 dbEmpty reqLogin).2.1.session.auth).all
        (fun s' => s'.idx ≤ (hLogin.pipeline.length : Int)) = false := by
  decide

/-- C9 (amended): on a fresh pipeline of `N` steps whose finish attempt
succeeds (here: the setup flow, whose resolver cannot fail), the first `N`
applications of `next_step` only dispatch steps `0 … N-1`, moving the stored
index from `-1` up to `N-1`; the `(N+1)`-th application reaches the finish —
exactly once — and removes the record; every further application is rejected
with a `KeyError` no-op, and the stored `stepIndex` never exceeds the step
count.  (When the finish attempt instead fails at resolver level the record
survives at index `N` and one further call stores `N+1`, exceeding the step
count — see the counterexample.) -/
theorem C9_amended (h : AuthHelper) (db : Database) (req0 : Request)
    (hflow : h.flow = FLOW_SETUP_PROVIDER)
    (hauth : req0.session.auth = some (init_pipeline h))
    (hmod : req0.session.is_modified = true) :
    (∀ k, k ≤ h.pipeline.length →
        next_steps h k db req0 = (dispatchOuts h k, reqAt h req0 k, db))
    ∧ ((next_steps h (h.pipeline.length + 1) db req0).1.getLast? =
        some (.ok (.redirect (str "sentry-organization-auth-settings")
          [h.organization.slug])))
    ∧ (∀ m, (next_steps h (h.pipeline.length + 1 + m) db req0).2.1.session.auth
        = none)
    ∧ ((next_steps h (h.pipeline.length + 2) db req0).1.getLast? =
        some (.error .keyError))
    ∧ ((next_steps h (h.pipeline.length + 2) db req0).2 =
        (next_steps h (h.pipeline.length + 1) db req0).2)
    ∧ (∀ k s', (next_steps h k db req0).2.1.session.auth = some s' →
        s'.idx ≤ (h.pipeline.length : Int)) := by
  obtain ⟨db', hafter⟩ := next_steps_after_finish h db req0 hflow hauth hmod
  have hphase := next_steps_dispatch_phase h db req0 hauth hmod
  have h1 := hafter 0
  simp only [Nat.add_zero, List.replicate, List.append_nil] at h1
  refine ⟨hphase, ?_, ?_, ?_, ?_, ?_⟩
  · rw [h1]
    simp
  · intro m
    rw [hafter m]
    rfl
  · show (next_steps h (h.pipeline.length + 1 + 1) db req0).1.getLast? = _
    rw [hafter 1]
    simp
  · show (next_steps h (h.pipeline.length + 1 + 1) db req0).2 = _
    rw [hafter 1, h1]
  · intro k s' hk
    by_cases hle : k ≤ h.pipeline.length
    · rw [hphase k hle] at hk
      unfold reqAt at hk
      simp only at hk
      injection hk with hk
      rw [← hk]
      show ((k : Int) - 1) ≤ (h.pipeline.length : Int)
      omega
    · obtain ⟨m, rfl⟩ : ∃ m, k = h.pipeline.length + 1 + m :=
        ⟨k - (h.pipeline.length + 1), by omega⟩
      rw [hafter m] at hk
      simp [clearAuth] at hk

/-- Witness for C9 (amended): the concrete one-step setup pipeline — after
two calls the record is gone. -/
theorem C9_amended_witness :
    (next_steps hSetup 2 dbEmpty reqSetup).2.1.session.auth = none :=
  (C9_amended hSetup dbEmpty reqSetup rfl rfl rfl).2.2.1 0

end Sentry
